import Mathlib

/-!
Shallow embedding of the openweatherwrap client library
(src/openweatherwrap/api.py and src/openweatherwrap/errors.py).

Modelling conventions, chosen once and used throughout:

* Python strings are Lean `String` values (a `String` here is a structure
  wrapping a `List Char`, matching the sequence-of-characters view).
  Python `str.replace` (which replaces every non-overlapping occurrence,
  scanning left to right) is embedded as `pyReplace` below.
* Numbers: Python `int` becomes `Int`; the numeric latitude/longitude
  values (Python `int | float`) become `Rat`.  `pyStr` stands in for the
  Python `str()` rendering of a coordinate; the exact digit rendering is
  irrelevant to every claim, which only needs that the rendering is some
  string spliced into the URL.
* An HTTP response is its status code, the parsed JSON body when the body
  parses as a JSON object (field values restricted to strings, since the
  code only ever reads string-valued fields), and the raw body text.
  `json = none` covers both a body that is not valid JSON and a JSON value
  with no `.get` method; in either case the except-branch of the source
  falls back to the raw text.
* `raise SomeError(msg)` in an operation is embedded as returning the
  typed error value `Except.error (... msg)`.  The separate Python-level
  question of whether the classes of errors.py are constructible and
  raisable at all is modelled faithfully by `OWMErrorClass` further below.
* Every operation returns, next to its `Except` result, the list of
  external calls it performed: for constructors these are geocoding
  lookups (the geopy call of the base constructor), for operations these
  are the URLs passed to `requests.get`/`requests.post`.  The network
  itself is an explicit argument (`geocoder`, `transport`).
-/

/-- Python-level errors raised by the library: `ValueError` for local
validation failures, and the five classes of errors.py for classified
HTTP failures. -/
inductive PyError where
  | ValueError (msg : String)
  | SubscriptionLevelError (msg : String)
  | InvalidAPIKeyError (msg : String)
  | NotFoundError (msg : String)
  | TooManyRequestsError (msg : String)
  | OpenWeatherMapException (msg : String)
deriving DecidableEq

deriving instance DecidableEq for Except

/-- Discriminator for the subscription-level error kind. -/
def PyError.isSubscriptionLevel : PyError → Bool
  | .SubscriptionLevelError _ => true
  | _ => false

/-- An HTTP response as the library observes it: status code, the parsed
JSON object body when available, and the raw text. -/
structure HttpResponse where
  status : Nat
  json : Option (List (String × String))
  text : String
deriving DecidableEq

/-- Embeds the repeated error-message extraction
`data.json().get('message', data.text)` guarded by `try/except`:
prefer the `message` field of a parsed JSON object body, otherwise the
raw response text. -/
def extractErrorMessage (data : HttpResponse) : String :=
  match data.json with
  | some obj => (obj.lookup "message").getD data.text
  | none => data.text

/-- Embeds the status-code `match` block that every operation of api.py
repeats verbatim (Python `match` on integer literals is sequential
comparison). -/
def classifyStatus (status : Nat) (msg : String) : PyError :=
  if status = 400000 then PyError.SubscriptionLevelError msg
  else if status = 401 then PyError.InvalidAPIKeyError msg
  else if status = 404 then PyError.NotFoundError msg
  else if status = 429 then PyError.TooManyRequestsError msg
  else PyError.OpenWeatherMapException msg

/-- Rendering of a coordinate into the URL; stands in for Python `str()`
on the numeric value.  The particular digits are irrelevant to the
claims; what matters is which string is spliced where. -/
def pyStr (q : Rat) : String :=
  if q.den = 1 then toString q.num else toString q.num ++ "/" ++ toString q.den

/-- Fuel-indexed worker for `replaceAll`; the fuel only forces structural
recursion (so that the kernel can evaluate the function) and is always
supplied as the length of the scanned list, which suffices because every
step consumes at least one character. -/
def replaceAllAux (pat rep : List Char) : Nat → List Char → List Char
  | _, [] => []
  | 0, s => s
  | Nat.succ fuel, c :: cs =>
    if pat ≠ [] ∧ pat.isPrefixOf (c :: cs) then
      rep ++ replaceAllAux pat rep fuel ((c :: cs).drop pat.length)
    else
      c :: replaceAllAux pat rep fuel cs

/-- Python `str.replace` on character lists: replace every
non-overlapping occurrence of `pat`, scanning left to right.  All uses in
api.py have a non-empty pattern; for an empty pattern this returns the
input unchanged. -/
def replaceAll (s pat rep : List Char) : List Char :=
  replaceAllAux pat rep s.length s

/-- Python `str.replace` lifted to strings. -/
def pyReplace (s pat rep : String) : String :=
  ⟨replaceAll s.data pat.data rep.data⟩

/-- The location argument of the base constructor: a free-text place
name, a coordinate tuple, or a tuple failing the arity/numeric-type check
(`len(location) != 2 or not all(isinstance(coord, (int, float)) ...)`);
`badTuple` stands for every value of that last kind. -/
inductive LocationInput where
  | name (s : String)
  | coords (lat lon : Rat)
  | badTuple

/-- Embeds `OpenWeatherMapAPI.__init__`s location handling: geocode a
free-text name (one geopy network lookup, recorded in the trace), or
validate a coordinate tuple locally.  Error messages follow the source
text. -/
def baseResolve (location : LocationInput) (geocoder : String → Option (Rat × Rat)) :
    Except PyError (Rat × Rat) × List String :=
  match location with
  | .name s =>
    match geocoder s with
    | some p => (Except.ok p, [s])
    | none => (Except.error (PyError.ValueError "Location not found. Please provide a valid location."), [s])
  | .coords la lo =>
    if ¬(-90 ≤ la ∧ la ≤ 90 ∧ -180 ≤ lo ∧ lo ≤ 180) then
      (Except.error (PyError.ValueError "Latitude must be between -90 and 90, and longitude must be between -180 and 180."), [])
    else
      (Except.ok (la, lo), [])
  | .badTuple =>
    (Except.error (PyError.ValueError "Location must be a tuple of (latitude, longitude)."), [])

/-- Opaque payload wrapper for the One Call response object of core.py. -/
structure OneCallResponse where
  fields : List (String × String)
deriving DecidableEq

/-- Payload of CurrentWeatherAPI.get_weather: raw text for html mode,
raw document for xml mode, parsed object for json mode. -/
inductive CurrentWeatherResult where
  | html (text : String)
  | xml (raw : String)
  | json (fields : List (String × String))
deriving DecidableEq

/-- Payload of FiveDayForecast.get_forecast. -/
inductive FiveDayForecastResult where
  | xml (raw : String)
  | json (fields : List (String × String))
deriving DecidableEq

/-- Opaque payload wrapper for the air pollution response of core.py. -/
structure AirPollutionResponse where
  fields : List (String × String)
deriving DecidableEq

/-- Opaque payload wrapper for the geocoding response of core.py. -/
structure GeocodingResponse where
  fields : List (String × String)
deriving DecidableEq

/-- Opaque payload wrapper for the weather station object of core.py. -/
structure WeatherStation where
  fields : List (String × String)
deriving DecidableEq

/-- Success-path body parse `X(data.json())`: a body that does not parse
as a JSON object makes `.json()` raise `JSONDecodeError`, a subclass of
`ValueError`, which propagates. -/
def parsedJson (data : HttpResponse) : Except PyError (List (String × String)) :=
  match data.json with
  | some o => Except.ok o
  | none => Except.error (PyError.ValueError "JSONDecodeError")

/-! ### OneCallAPI (api.py lines 66-237) -/

/-- Client state established by `OneCallAPI.__init__`. -/
structure OneCallAPI where
  api_key : String
  location : Rat × Rat
  language : String
  units : String
  url : String
deriving DecidableEq

/-- Embeds `OneCallAPI.__init__`: resolve/validate the location via the
base constructor, then store the interpolated one-call URL. -/
def OneCallAPI.init (api_key : String) (location : LocationInput) (language : String)
    (units : String) (geocoder : String → Option (Rat × Rat)) :
    Except PyError OneCallAPI × List String :=
  match baseResolve location geocoder with
  | (Except.error e, tr) => (Except.error e, tr)
  | (Except.ok loc, tr) =>
    (Except.ok
      { api_key := api_key, location := loc, language := language, units := units,
        url := "https://api.openweathermap.org/data/3.0/onecall?lat=" ++ pyStr loc.1
          ++ "&lon=" ++ pyStr loc.2 ++ "&appid=" ++ api_key ++ "&lang=" ++ language
          ++ "&units=" ++ units }, tr)

/-- URL composed by `OneCallAPI.get_weather`: the stored URL plus an
`exclude` fragment only when the joined exclusion list is non-empty. -/
def OneCallAPI.weatherUrl (c : OneCallAPI) (exclude : List String) : String :=
  if (if exclude.isEmpty then "" else String.intercalate "," exclude) ≠ "" then
    c.url ++ "&exclude=" ++ String.intercalate "," exclude
  else c.url

/-- Embeds `OneCallAPI.get_weather`. -/
def OneCallAPI.get_weather (c : OneCallAPI) (exclude : List String)
    (transport : String → HttpResponse) : Except PyError OneCallResponse × List String :=
  (if (transport (c.weatherUrl exclude)).status = 200 then
    (parsedJson (transport (c.weatherUrl exclude))).map OneCallResponse.mk
  else
    Except.error (classifyStatus (transport (c.weatherUrl exclude)).status
      (extractErrorMessage (transport (c.weatherUrl exclude)))), [c.weatherUrl exclude])

/-- URL composed by `OneCallAPI.get_timed_weather`. -/
def OneCallAPI.timedUrl (c : OneCallAPI) (timestamp : Int) : String :=
  pyReplace c.url "onecall?" "onecall/timemachine?" ++ "&dt=" ++ toString timestamp

/-- Embeds `OneCallAPI.get_timed_weather`, including the 1979-01-01
timestamp validation that precedes the request. -/
def OneCallAPI.get_timed_weather (c : OneCallAPI) (timestamp : Int)
    (transport : String → HttpResponse) : Except PyError OneCallResponse × List String :=
  if timestamp < 283996800 then
    (Except.error (PyError.ValueError
      "Timestamp must be greater than or equal to January 1, 1979 (283996800)."), [])
  else
    (if (transport (c.timedUrl timestamp)).status = 200 then
      (parsedJson (transport (c.timedUrl timestamp))).map OneCallResponse.mk
    else
      Except.error (classifyStatus (transport (c.timedUrl timestamp)).status
        (extractErrorMessage (transport (c.timedUrl timestamp)))), [c.timedUrl timestamp])

/-- URL composed by `OneCallAPI.get_aggregation`. -/
def OneCallAPI.aggregationUrl (c : OneCallAPI) (date : String) : String :=
  pyReplace c.url "onecall?" "onecall/day_summary?" ++ "&date=" ++ date

/-- Embeds `OneCallAPI.get_aggregation`. -/
def OneCallAPI.get_aggregation (c : OneCallAPI) (date : String)
    (transport : String → HttpResponse) : Except PyError OneCallResponse × List String :=
  (if (transport (c.aggregationUrl date)).status = 200 then
    (parsedJson (transport (c.aggregationUrl date))).map OneCallResponse.mk
  else
    Except.error (classifyStatus (transport (c.aggregationUrl date)).status
      (extractErrorMessage (transport (c.aggregationUrl date)))), [c.aggregationUrl date])

/-- URL composed by `OneCallAPI.get_overview`: switch the path to the
overview variant, then string-remove the already-interpolated language
fragment, exactly as the source does. -/
def OneCallAPI.overviewUrl (c : OneCallAPI) : String :=
  pyReplace (pyReplace c.url "onecall?" "onecall/overview?") ("&lang=" ++ c.language) ""

/-- Embeds `OneCallAPI.get_overview`: on success return the
`weather_overview` field with the source default. -/
def OneCallAPI.get_overview (c : OneCallAPI) (transport : String → HttpResponse) :
    Except PyError String × List String :=
  (if (transport c.overviewUrl).status = 200 then
    match (transport c.overviewUrl).json with
    | some o => Except.ok ((o.lookup "weather_overview").getD "No overview available.")
    | none => Except.error (PyError.ValueError "JSONDecodeError")
  else
    Except.error (classifyStatus (transport c.overviewUrl).status
      (extractErrorMessage (transport c.overviewUrl))), [c.overviewUrl])

/-! ### CurrentWeatherAPI (api.py lines 239-305) -/

/-- Client state established by `CurrentWeatherAPI.__init__`. -/
structure CurrentWeatherAPI where
  api_key : String
  location : Rat × Rat
  language : String
  units : String
  mode : String
  url : String
deriving DecidableEq

/-- Embeds `CurrentWeatherAPI.__init__`: the base constructor runs first
(so a free-text location is geocoded before the mode check), then the
mode is validated, then the URL is stored. -/
def CurrentWeatherAPI.init (api_key : String) (location : LocationInput) (language : String)
    (units : String) (mode : String) (geocoder : String → Option (Rat × Rat)) :
    Except PyError CurrentWeatherAPI × List String :=
  match baseResolve location geocoder with
  | (Except.error e, tr) => (Except.error e, tr)
  | (Except.ok loc, tr) =>
    if mode ∉ ["xml", "html", "json"] then
      (Except.error (PyError.ValueError "Mode must be either xml or html or json."), tr)
    else
      (Except.ok
        { api_key := api_key, location := loc, language := language, units := units,
          mode := mode,
          url := "https://api.openweathermap.org/data/2.5/weather?lat=" ++ pyStr loc.1
            ++ "&lon=" ++ pyStr loc.2 ++ "&appid=" ++ api_key ++ "&lang=" ++ language
            ++ "&units=" ++ units ++ "&mode=" ++ mode }, tr)

/-- Embeds `CurrentWeatherAPI.get_weather` with its mode-dependent
success branches. -/
def CurrentWeatherAPI.get_weather (c : CurrentWeatherAPI)
    (transport : String → HttpResponse) : Except PyError CurrentWeatherResult × List String :=
  (if (transport c.url).status = 200 then
    if c.mode = "html" then Except.ok (CurrentWeatherResult.html (transport c.url).text)
    else if c.mode = "xml" then Except.ok (CurrentWeatherResult.xml (transport c.url).text)
    else (parsedJson (transport c.url)).map CurrentWeatherResult.json
  else
    Except.error (classifyStatus (transport c.url).status
      (extractErrorMessage (transport c.url))), [c.url])

/-! ### FiveDayForecast (api.py lines 307-374) -/

/-- Client state established by `FiveDayForecast.__init__`. -/
structure FiveDayForecast where
  api_key : String
  location : Rat × Rat
  count : Int
  language : String
  units : String
  mode : String
  url : String
deriving DecidableEq

/-- The forecast base URL before the optional count fragment. -/
def forecastBaseUrl (api_key : String) (loc : Rat × Rat) (language units mode : String) :
    String :=
  "https://api.openweathermap.org/data/2.5/forecast?lat=" ++ pyStr loc.1
    ++ "&lon=" ++ pyStr loc.2 ++ "&appid=" ++ api_key ++ "&lang=" ++ language
    ++ "&units=" ++ units ++ "&mode=" ++ mode

/-- Embeds `FiveDayForecast.__init__`: base constructor, mode check, URL,
then `&cnt={count}` appended only for a strictly positive count. -/
def FiveDayForecast.init (api_key : String) (location : LocationInput) (count : Int)
    (language : String) (units : String) (mode : String)
    (geocoder : String → Option (Rat × Rat)) :
    Except PyError FiveDayForecast × List String :=
  match baseResolve location geocoder with
  | (Except.error e, tr) => (Except.error e, tr)
  | (Except.ok loc, tr) =>
    if mode ∉ ["xml", "json"] then
      (Except.error (PyError.ValueError "Mode must be either xml or json."), tr)
    else
      (Except.ok
        { api_key := api_key, location := loc, count := count, language := language,
          units := units, mode := mode,
          url := if count > 0 then
              forecastBaseUrl api_key loc language units mode ++ "&cnt=" ++ toString count
            else forecastBaseUrl api_key loc language units mode }, tr)

/-- Embeds `FiveDayForecast.get_forecast`. -/
def FiveDayForecast.get_forecast (c : FiveDayForecast)
    (transport : String → HttpResponse) : Except PyError FiveDayForecastResult × List String :=
  (if (transport c.url).status = 200 then
    if c.mode = "xml" then Except.ok (FiveDayForecastResult.xml (transport c.url).text)
    else (parsedJson (transport c.url)).map FiveDayForecastResult.json
  else
    Except.error (classifyStatus (transport c.url).status
      (extractErrorMessage (transport c.url))), [c.url])

/-! ### AirPollutionAPI (api.py lines 376-495) -/

/-- Client state established by `AirPollutionAPI.__init__` (the base
constructor runs with default language and units). -/
structure AirPollutionAPI where
  api_key : String
  location : Rat × Rat
  language : String
  units : String
  url : String
deriving DecidableEq

/-- Embeds `AirPollutionAPI.__init__`. -/
def AirPollutionAPI.init (api_key : String) (location : LocationInput)
    (geocoder : String → Option (Rat × Rat)) :
    Except PyError AirPollutionAPI × List String :=
  match baseResolve location geocoder with
  | (Except.error e, tr) => (Except.error e, tr)
  | (Except.ok loc, tr) =>
    (Except.ok
      { api_key := api_key, location := loc, language := "en", units := "standard",
        url := "https://api.openweathermap.org/data/2.5/air_pollution?lat=" ++ pyStr loc.1
          ++ "&lon=" ++ pyStr loc.2 ++ "&appid=" ++ api_key }, tr)

/-- Embeds `AirPollutionAPI.get_current_air_pollution`. -/
def AirPollutionAPI.get_current_air_pollution (c : AirPollutionAPI)
    (transport : String → HttpResponse) : Except PyError AirPollutionResponse × List String :=
  (if (transport c.url).status = 200 then
    (parsedJson (transport c.url)).map AirPollutionResponse.mk
  else
    Except.error (classifyStatus (transport c.url).status
      (extractErrorMessage (transport c.url))), [c.url])

/-- URL composed by `AirPollutionAPI.get_air_pollution_forecast`. -/
def AirPollutionAPI.forecastUrl (c : AirPollutionAPI) : String :=
  pyReplace c.url "air_pollution?" "air_pollution/forecast?"

/-- Embeds `AirPollutionAPI.get_air_pollution_forecast`. -/
def AirPollutionAPI.get_air_pollution_forecast (c : AirPollutionAPI)
    (transport : String → HttpResponse) : Except PyError AirPollutionResponse × List String :=
  (if (transport c.forecastUrl).status = 200 then
    (parsedJson (transport c.forecastUrl)).map AirPollutionResponse.mk
  else
    Except.error (classifyStatus (transport c.forecastUrl).status
      (extractErrorMessage (transport c.forecastUrl))), [c.forecastUrl])

/-- URL composed by `AirPollutionAPI.get_air_pollution_history`. -/
def AirPollutionAPI.historyUrl (c : AirPollutionAPI) (start end_ : Int) : String :=
  pyReplace c.url "air_pollution?" "air_pollution/history?"
    ++ "&start=" ++ toString start ++ "&end=" ++ toString end_

/-- Embeds `AirPollutionAPI.get_air_pollution_history`. -/
def AirPollutionAPI.get_air_pollution_history (c : AirPollutionAPI) (start end_ : Int)
    (transport : String → HttpResponse) : Except PyError AirPollutionResponse × List String :=
  (if (transport (c.historyUrl start end_)).status = 200 then
    (parsedJson (transport (c.historyUrl start end_))).map AirPollutionResponse.mk
  else
    Except.error (classifyStatus (transport (c.historyUrl start end_)).status
      (extractErrorMessage (transport (c.historyUrl start end_)))),
   [c.historyUrl start end_])

/-! ### GeocodingAPI (api.py lines 497-638) -/

/-- Client state established by `GeocodingAPI.__init__` (the base
constructor runs with the fixed location tuple (0.0, 0.0)). -/
structure GeocodingAPI where
  api_key : String
  location : Rat × Rat
  language : String
  units : String
  url : String
deriving DecidableEq

/-- Embeds `GeocodingAPI.__init__`; note the stored base URL contains the
literal text `direct?&appid=` from the source template. -/
def GeocodingAPI.init (api_key : String) (geocoder : String → Option (Rat × Rat)) :
    Except PyError GeocodingAPI × List String :=
  match baseResolve (LocationInput.coords 0 0) geocoder with
  | (Except.error e, tr) => (Except.error e, tr)
  | (Except.ok loc, tr) =>
    (Except.ok
      { api_key := api_key, location := loc, language := "en", units := "standard",
        url := "https://api.openweathermap.org/geo/1.0/direct?&appid=" ++ api_key }, tr)

/-- URL composed by `GeocodingAPI.get_by_city` after the limit check:
the state code is appended only when truthy (Python: neither None nor the
empty string). -/
def GeocodingAPI.byCityUrl (c : GeocodingAPI) (city country : String)
    (state_code : Option String) (limit : Int) : String :=
  (match state_code with
    | some s => if s = "" then c.url ++ "&q=" ++ city ++ "," ++ country
                else c.url ++ "&q=" ++ city ++ "," ++ country ++ "," ++ s
    | none => c.url ++ "&q=" ++ city ++ "," ++ country)
  ++ "&limit=" ++ toString limit

/-- Embeds `GeocodingAPI.get_by_city`, including the limit-bounds
validation that precedes the request. -/
def GeocodingAPI.get_by_city (c : GeocodingAPI) (city country : String)
    (state_code : Option String) (limit : Int) (transport : String → HttpResponse) :
    Except PyError GeocodingResponse × List String :=
  if limit > 5 ∨ limit < 1 then
    (Except.error (PyError.ValueError "Limit must be between 1 and 5."), [])
  else
    (if (transport (c.byCityUrl city country state_code limit)).status = 200 then
      (parsedJson (transport (c.byCityUrl city country state_code limit))).map GeocodingResponse.mk
    else
      Except.error (classifyStatus (transport (c.byCityUrl city country state_code limit)).status
        (extractErrorMessage (transport (c.byCityUrl city country state_code limit)))),
     [c.byCityUrl city country state_code limit])

/-- URL composed by `GeocodingAPI.get_by_zip`. -/
def GeocodingAPI.byZipUrl (c : GeocodingAPI) (zip_code country : String) : String :=
  pyReplace c.url "direct?" "zip?" ++ "&zip=" ++ zip_code ++ "," ++ country

/-- Embeds `GeocodingAPI.get_by_zip`. -/
def GeocodingAPI.get_by_zip (c : GeocodingAPI) (zip_code country : String)
    (transport : String → HttpResponse) : Except PyError GeocodingResponse × List String :=
  (if (transport (c.byZipUrl zip_code country)).status = 200 then
    (parsedJson (transport (c.byZipUrl zip_code country))).map GeocodingResponse.mk
  else
    Except.error (classifyStatus (transport (c.byZipUrl zip_code country)).status
      (extractErrorMessage (transport (c.byZipUrl zip_code country)))),
   [c.byZipUrl zip_code country])

/-- URL composed by `GeocodingAPI.get_by_coordinates` after validation:
parameters are appended to the stored URL, then the path segment is
rewritten from direct to reverse. -/
def GeocodingAPI.byCoordinatesUrl (c : GeocodingAPI) (latitude longitude : Rat)
    (limit : Int) : String :=
  pyReplace (c.url ++ "&lat=" ++ pyStr latitude ++ "&lon=" ++ pyStr longitude
    ++ "&limit=" ++ toString limit) "direct?" "reverse?"

/-- Embeds `GeocodingAPI.get_by_coordinates`: limit bounds first, then
coordinate range, then the request. -/
def GeocodingAPI.get_by_coordinates (c : GeocodingAPI) (latitude longitude : Rat)
    (limit : Int) (transport : String → HttpResponse) :
    Except PyError GeocodingResponse × List String :=
  if limit > 5 ∨ limit < 1 then
    (Except.error (PyError.ValueError "Limit must be between 1 and 5."), [])
  else if ¬(-90 ≤ latitude ∧ latitude ≤ 90 ∧ -180 ≤ longitude ∧ longitude ≤ 180) then
    (Except.error (PyError.ValueError "Latitude must be between -90 and 90, and longitude must be between -180 and 180."), [])
  else
    (if (transport (c.byCoordinatesUrl latitude longitude limit)).status = 200 then
      (parsedJson (transport (c.byCoordinatesUrl latitude longitude limit))).map GeocodingResponse.mk
    else
      Except.error (classifyStatus (transport (c.byCoordinatesUrl latitude longitude limit)).status
        (extractErrorMessage (transport (c.byCoordinatesUrl latitude longitude limit)))),
     [c.byCoordinatesUrl latitude longitude limit])

/-! ### WeatherStationAPI (api.py lines 640-693) -/

/-- Client state established by `WeatherStationAPI.__init__`. -/
structure WeatherStationAPI where
  api_key : String
  location : Rat × Rat
  language : String
  units : String
  url : String
  headers : List (String × String)
deriving DecidableEq

/-- Embeds `WeatherStationAPI.__init__`: the API key is checked for
truthiness before the base constructor runs. -/
def WeatherStationAPI.init (api_key : String) (geocoder : String → Option (Rat × Rat)) :
    Except PyError WeatherStationAPI × List String :=
  if api_key = "" then
    (Except.error (PyError.ValueError "API key must be provided."), [])
  else
    match baseResolve (LocationInput.coords 0 0) geocoder with
    | (Except.error e, tr) => (Except.error e, tr)
    | (Except.ok loc, tr) =>
      (Except.ok
        { api_key := api_key, location := loc, language := "en", units := "standard",
          url := "https://api.openweathermap.org/data/3.0/stations?appid=" ++ api_key,
          headers := [("Content-Type", "application/json")] }, tr)

/-- Embeds `WeatherStationAPI.register_station`: a POST whose success
status is 201; every other status goes through the shared classifier. -/
def WeatherStationAPI.register_station (c : WeatherStationAPI)
    (station_data : List (String × String))
    (post : String → List (String × String) → HttpResponse) :
    Except PyError WeatherStation × List String :=
  (if (post c.url station_data).status = 201 then
    (parsedJson (post c.url station_data)).map WeatherStation.mk
  else
    Except.error (classifyStatus (post c.url station_data).status
      (extractErrorMessage (post c.url station_data))), [c.url])

/-! ### The error classes of errors.py, at the Python object level

Claims about raisability need the class declarations themselves:
errors.py line 5 declares `OpenWeatherMapException` with no base class
(so its implicit base is `object`, not `Exception`), and no class in the
file defines an `__init__`. -/

/-- The five classes declared in errors.py. -/
inductive OWMErrorClass where
  | OpenWeatherMapException
  | SubscriptionLevelError
  | InvalidAPIKeyError
  | NotFoundError
  | TooManyRequestsError
deriving DecidableEq

/-- The declared base class of each class in errors.py; `none` means the
implicit base `object`. -/
def OWMErrorClass.declaredBase : OWMErrorClass → Option OWMErrorClass
  | .OpenWeatherMapException => none
  | .SubscriptionLevelError => some .OpenWeatherMapException
  | .InvalidAPIKeyError => some .OpenWeatherMapException
  | .NotFoundError => some .OpenWeatherMapException
  | .TooManyRequestsError => some .OpenWeatherMapException

/-- Python `issubclass` on the (depth-one) hierarchy of errors.py. -/
def OWMErrorClass.isSubclassOf (c d : OWMErrorClass) : Bool :=
  c == d || ((c.declaredBase.map (fun b => b == d)).getD false)

/-- Whether a class of errors.py descends from `BaseException`.  The
hierarchy has depth one, so unrolling the ancestor chain twice covers
every class; the chain ends at the root, which is declared bare
(implicit base `object`, not `Exception`), contributing `false`. -/
def OWMErrorClass.extendsExceptionBase (c : OWMErrorClass) : Bool :=
  match c.declaredBase with
  | none => false
  | some b =>
    match b.declaredBase with
    | none => false
    | some _ => false

/-- Whether a class of errors.py defines its own `__init__`: none does,
so construction falls through to `object.__init__`. -/
def OWMErrorClass.definesCustomInit : OWMErrorClass → Bool :=
  fun _ => false

/-- The Python runtime error produced when the error-raising code of
api.py executes. -/
inductive PyCallError where
  | TypeError
deriving DecidableEq

/-- Python semantics of the call `C(error_message)` for a class of
errors.py: with no custom `__init__` anywhere in the hierarchy,
`object.__init__` rejects the extra positional argument with a
`TypeError`. -/
def OWMErrorClass.callWithMessage (c : OWMErrorClass) (msg : String) :
    Except PyCallError (OWMErrorClass × String) :=
  if c.definesCustomInit then Except.ok (c, msg) else Except.error PyCallError.TypeError

/-- Python semantics of `raise x` for an instance of a class of
errors.py: only instances of `BaseException` descendants can be raised;
anything else produces a `TypeError`. -/
def OWMErrorClass.raisable (c : OWMErrorClass) : Bool :=
  c.extendsExceptionBase

/-! ### Predicates used to reason about the URL string surgery -/

/-- No occurrence of `pat` starts strictly inside `a` when `a` is
followed by the text `X`: for every non-empty suffix `t` of `a`, the
pattern is not a prefix of `t ++ X`. -/
def SafeW (pat a X : List Char) : Prop :=
  ∀ t, t <:+ a → t ≠ [] → ¬ pat <+: (t ++ X)

/-- Decidable sufficient condition for `SafeW pat u X` holding for every
continuation `X`: no non-empty suffix of `u` is prefix-related to the
pattern in either direction. -/
def safeChunk (pat u : List Char) : Bool :=
  u.tails.all fun t => t.isEmpty || (!(List.isPrefixOf t pat) && !(List.isPrefixOf pat t))

/-- Decidable check that no non-trivial tail of the pattern starts with
the character `c`; used to rule out occurrences that straddle the end of
an abstract URL component whose following component starts with `c`. -/
def headSafeDrop (pat : List Char) (c : Char) : Bool :=
  (List.range pat.length).all fun k => k = 0 || (pat.drop k).head? != some c

/-- Substring test on strings (used to state the presence of an empty
query fragment such as the dangling separator pair). -/
def containsSub (s pat : String) : Bool :=
  s.data.tails.any fun t => pat.data.isPrefixOf t

/-! ## Supporting lemmas

The remainder of the file consists of theorems: first supporting lemmas
about `replaceAll` (the embedding of Python `str.replace`), then the
claim theorems with their witnesses and counterexamples. -/

/-- The fuel argument of `replaceAllAux` is irrelevant as long as it
dominates the length of the scanned list. -/
theorem replaceAllAux_congr (pat rep : List Char) :
    ∀ f₁ f₂ s, s.length ≤ f₁ → s.length ≤ f₂ →
      replaceAllAux pat rep f₁ s = replaceAllAux pat rep f₂ s := by
  intro f₁
  induction f₁ with
  | zero =>
    intro f₂ s h1 _
    have : s = [] := List.length_eq_zero.mp (Nat.le_zero.mp h1)
    subst this
    cases f₂ <;> rfl
  | succ f ih =>
    intro f₂ s h1 h2
    cases s with
    | nil => cases f₂ <;> rfl
    | cons c cs =>
      cases f₂ with
      | zero => simp at h2
      | succ f₂ =>
        simp only [replaceAllAux]
        by_cases hc : pat ≠ [] ∧ pat.isPrefixOf (c :: cs)
        · rw [if_pos hc, if_pos hc]
          have hp : 1 ≤ pat.length := by
            cases pat with
            | nil => exact absurd rfl hc.1
            | cons p ps => simp
          have hd : ((c :: cs).drop pat.length).length ≤ f := by
            simp only [List.length_drop, List.length_cons]
            simp only [List.length_cons] at h1
            omega
          have hd2 : ((c :: cs).drop pat.length).length ≤ f₂ := by
            simp only [List.length_drop, List.length_cons]
            simp only [List.length_cons] at h2
            omega
          rw [ih f₂ _ hd hd2]
        · rw [if_neg hc, if_neg hc]
          have hcs : cs.length ≤ f := by simp only [List.length_cons] at h1; omega
          have hcs2 : cs.length ≤ f₂ := by simp only [List.length_cons] at h2; omega
          rw [ih f₂ cs hcs hcs2]

/-- Unfolding equation of `replaceAll` on the empty list. -/
theorem replaceAll_nil (pat rep : List Char) : replaceAll [] pat rep = [] := rfl

/-- Unfolding equation of `replaceAll` on a cons cell: replace a match at
the head and continue after it, or keep the head character and scan on. -/
theorem replaceAll_cons (c : Char) (cs pat rep : List Char) :
    replaceAll (c :: cs) pat rep =
      if pat ≠ [] ∧ pat.isPrefixOf (c :: cs) then
        rep ++ replaceAll ((c :: cs).drop pat.length) pat rep
      else
        c :: replaceAll cs pat rep := by
  show replaceAllAux pat rep (c :: cs).length (c :: cs) = _
  simp only [List.length_cons, replaceAllAux]
  by_cases hc : pat ≠ [] ∧ pat.isPrefixOf (c :: cs)
  · rw [if_pos hc, if_pos hc]
    have hp : 1 ≤ pat.length := by
      cases pat with
      | nil => exact absurd rfl hc.1
      | cons p ps => simp
    have hd : ((c :: cs).drop pat.length).length ≤ cs.length := by
      simp only [List.length_drop, List.length_cons]
      omega
    rw [replaceAllAux_congr pat rep cs.length ((c :: cs).drop pat.length).length _ hd le_rfl]
    rfl
  · rw [if_neg hc, if_neg hc]
    rfl
/-- A prefix of an appended list is a prefix of the left part or extends it. -/
theorem prefix_append_cases {p t X : List Char} (h : p <+: t ++ X) :
    p <+: t ∨ t <+: p := by
  obtain ⟨u, hu⟩ := h
  rcases List.append_eq_append_iff.mp hu with ⟨a, ha1, _⟩ | ⟨c, hc1, _⟩
  · exact Or.inl ⟨a, ha1.symm⟩
  · exact Or.inr ⟨c, hc1.symm⟩

/-- `SafeW` composes over concatenation of the scanned region. -/
theorem safeW_append {pat u v X : List Char} (hu : SafeW pat u (v ++ X))
    (hv : SafeW pat v X) : SafeW pat (u ++ v) X := by
  intro t ht hne hp
  obtain ⟨w, hw⟩ := ht
  rcases List.append_eq_append_iff.mp hw with ⟨a, ha1, ha2⟩ | ⟨c, hc1, hc2⟩
  · -- u = w ++ a, t = a ++ v
    by_cases haz : a = []
    · subst haz
      simp only [List.nil_append] at ha2
      exact hv t (by rw [ha2]) hne hp
    · have hsa : a <:+ u := ⟨w, ha1.symm⟩
      apply hu a hsa haz
      rw [ha2] at hp
      simpa [List.append_assoc] using hp
  · -- w = u ++ c, v = c ++ t
    exact hv t ⟨c, hc2.symm⟩ hne hp

/-- A component free of the head character of the pattern admits no occurrence starting inside it. -/
theorem safeW_head {ch : Char} {p' s X : List Char} (h : ch ∉ s) :
    SafeW (ch :: p') s X := by
  intro t ht hne hp
  cases t with
  | nil => exact hne rfl
  | cons c cs =>
    rw [List.cons_append, List.cons_prefix_cons] at hp
    exact h (List.IsSuffix.subset ht (by rw [hp.1]; exact List.mem_cons_self c cs))

/-- Soundness of the decidable chunk check, for every continuation. -/
theorem safeW_of_safeChunk {pat u : List Char} (h : safeChunk pat u = true) (X : List Char) :
    SafeW pat u X := by
  intro t ht hne hp
  have hmem : t ∈ u.tails := (List.mem_tails t u).mpr ht
  have := List.all_eq_true.mp h t hmem
  rcases Bool.or_eq_true_iff.mp this with h1 | h2
  · exact hne (List.isEmpty_iff.mp h1)
  · obtain ⟨hn1, hn2⟩ := Bool.and_eq_true_iff.mp h2
    rcases prefix_append_cases hp with hc | hc
    · rw [Bool.not_eq_eq_eq_not, Bool.not_true] at hn2
      exact absurd ((List.isPrefixOf_iff_prefix).mpr hc) (by simp [hn2])
    · rw [Bool.not_eq_eq_eq_not, Bool.not_true] at hn1
      exact absurd ((List.isPrefixOf_iff_prefix).mpr hc) (by simp [hn1])

/-- Extending the pattern to the right preserves `SafeW`. -/
theorem safeW_mono {p q u X : List Char} (h : SafeW p u X) : SafeW (p ++ q) u X := by
  intro t ht hne hp
  exact h t ht hne ((List.prefix_append p q).trans hp)

/-- A component free of a character of the pattern, followed by text whose head character starts no non-trivial tail of the pattern, admits no occurrence starting inside it. -/
theorem safeW_abs {pat s X : List Char} {ch c : Char}
    (hch : ch ∈ pat) (hs : ch ∉ s) (hd : headSafeDrop pat c = true) :
    SafeW pat s (c :: X) := by
  intro t ht hne hp
  rcases prefix_append_cases hp with hc | hc
  · exact hs (List.IsSuffix.subset ht (List.IsPrefix.subset hc hch))
  · by_cases heq : t = pat
    · subst heq
      exact hs (List.IsSuffix.subset ht hch)
    · -- t is a proper prefix of pat
      have htk : t = pat.take t.length := List.prefix_iff_eq_take.mp hc
      have hlt : t.length < pat.length := by
        rcases Nat.lt_or_ge t.length pat.length with h | h
        · exact h
        · exfalso
          apply heq
          have := List.IsPrefix.length_le hc
          have hlen : t.length = pat.length := Nat.le_antisymm this h
          rw [htk, hlen, List.take_length]
      -- from hp: pat <+: t ++ c :: X, and pat = t ++ pat.drop t.length
      have hsplit : pat = pat.take t.length ++ pat.drop t.length := (List.take_append_drop _ _).symm
      rw [hsplit, ← htk] at hp
      have hp2 : pat.drop t.length <+: c :: X := by
        have := hp
        rw [htk] at this ⊢
        exact (List.prefix_append_right_inj _).mp (by rw [← htk]; exact hp)
      have hd1 : (pat.drop t.length).head? = some c := by
        cases hdp : pat.drop t.length with
        | nil =>
          have : pat.length - t.length = 0 := by
            have := congrArg List.length hdp
            simpa [List.length_drop] using this
          omega
        | cons d ds =>
          rw [hdp] at hp2
          rw [List.cons_prefix_cons] at hp2
          simp [hp2.1]
      have := List.all_eq_true.mp hd t.length (List.mem_range.mpr hlt)
      rcases Bool.or_eq_true_iff.mp this with h0 | hne2
      · have : t.length = 0 := by simpa using h0
        exact hne (by rw [htk, this, List.take_zero])
      · rw [hd1] at hne2
        simp at hne2

/-- Same as `safeW_abs` for the final component of the scanned text. -/
theorem safeW_abs_nil {pat s : List Char} {ch : Char}
    (hch : ch ∈ pat) (hs : ch ∉ s) : SafeW pat s [] := by
  intro t ht hne hp
  rw [List.append_nil] at hp
  exact hs (List.IsSuffix.subset ht (List.IsPrefix.subset hp hch))

/-- Main rewrite: when no occurrence of the pattern starts inside `a`, the scan replaces the explicit occurrence and continues after it. -/
theorem replaceAll_single {pat a b rep : List Char} (hpat : pat ≠ [])
    (hsafe : SafeW pat a (pat ++ b)) :
    replaceAll (a ++ pat ++ b) pat rep = a ++ rep ++ replaceAll b pat rep := by
  induction a with
  | nil =>
    simp only [List.nil_append]
    cases hp : pat with
    | nil => exact absurd hp hpat
    | cons p ps =>
      rw [← hp]
      have hne : pat ++ b ≠ [] := by
        intro h
        exact hpat (List.append_eq_nil.mp h).1
      cases hq : pat ++ b with
      | nil => exact absurd hq hne
      | cons q qs =>
        rw [← hq, hq, replaceAll_cons, ← hq]
        rw [if_pos ⟨hpat, List.isPrefixOf_iff_prefix.mpr (List.prefix_append pat b)⟩]
        rw [List.drop_left]
  | cons c a' ih =>
    have hnp : ¬ pat <+: (c :: a') ++ (pat ++ b) :=
      hsafe (c :: a') List.suffix_rfl (by simp)
    rw [List.cons_append, List.cons_append, replaceAll_cons]
    rw [if_neg (by
      intro hcond
      apply hnp
      have := List.isPrefixOf_iff_prefix.mp hcond.2
      simpa [List.append_assoc] using this)]
    rw [ih (fun t ht hne => hsafe t (ht.trans (List.suffix_cons c a')) hne)]
    simp [List.cons_append, List.append_assoc]

/-- When no occurrence of the pattern starts anywhere, the scan is the identity. -/
theorem replaceAll_eq_self {pat s rep : List Char} (hsafe : SafeW pat s []) :
    replaceAll s pat rep = s := by
  induction s with
  | nil => rfl
  | cons c s' ih =>
    rw [replaceAll_cons]
    rw [if_neg (by
      intro hcond
      apply hsafe (c :: s') List.suffix_rfl (by simp)
      rw [List.append_nil]
      exact List.isPrefixOf_iff_prefix.mp hcond.2)]
    rw [ih (fun t ht hne => hsafe t (ht.trans (List.suffix_cons c s')) hne)]

/-- Variant of `safeW_abs` taking the head of the continuation as an equation. -/
theorem safeW_abs' {pat s X : List Char} {ch c : Char}
    (hch : ch ∈ pat) (hs : ch ∉ s) (hd : headSafeDrop pat c = true)
    (hX : X.head? = some c) : SafeW pat s X := by
  cases X with
  | nil => simp at hX
  | cons x xs =>
    simp only [List.head?_cons, Option.some.injEq] at hX
    subst hX
    exact safeW_abs hch hs hd

/-- List-level computation of the URL composed by `get_overview`: the path rewrite followed by the removal of the interpolated language fragment, for arbitrary interpolated components free of the separator characters. -/
theorem overview_list (latD lonD keyD langD unitsD : List Char)
    (hq1 : '?' ∉ latD) (hq2 : '?' ∉ lonD) (hq3 : '?' ∉ keyD)
    (hq4 : '?' ∉ langD) (hq5 : '?' ∉ unitsD)
    (ha1 : '&' ∉ latD) (ha2 : '&' ∉ lonD) (ha3 : '&' ∉ keyD)
    (ha5 : '&' ∉ unitsD) :
    replaceAll (replaceAll
        ("https://api.openweathermap.org/data/3.0/".data ++ "onecall?".data ++ "lat=".data
          ++ latD ++ "&lon=".data ++ lonD ++ "&appid=".data ++ keyD ++ "&lang=".data
          ++ langD ++ "&units=".data ++ unitsD)
        "onecall?".data "onecall/overview?".data)
      ("&lang=".data ++ langD) []
    = "https://api.openweathermap.org/data/3.0/".data ++ "onecall/overview?".data
        ++ "lat=".data ++ latD ++ "&lon=".data ++ lonD ++ "&appid=".data ++ keyD
        ++ "&units=".data ++ unitsD := by
  have hch1 : '?' ∈ ("onecall?".data : List Char) := by decide
  have hpat1 : ("onecall?".data : List Char) ≠ [] := by decide
  have hpat2 : ("&lang=".data : List Char) ++ langD ≠ [] := by
    intro h
    exact absurd (List.append_eq_nil.mp h).1 (by decide)
  -- step 1: the path rewrite onecall -> onecall/overview
  rw [show "https://api.openweathermap.org/data/3.0/".data ++ "onecall?".data ++ "lat=".data
        ++ latD ++ "&lon=".data ++ lonD ++ "&appid=".data ++ keyD ++ "&lang=".data
        ++ langD ++ "&units=".data ++ unitsD
      = ("https://api.openweathermap.org/data/3.0/".data ++ "onecall?".data)
        ++ ("lat=".data ++ (latD ++ ("&lon=".data ++ (lonD ++ ("&appid=".data ++ (keyD
          ++ ("&lang=".data ++ (langD ++ ("&units=".data ++ unitsD)))))))))
      from by simp [List.append_assoc]]
  rw [replaceAll_single hpat1 (safeW_of_safeChunk (by decide) _)]
  rw [replaceAll_eq_self
    (safeW_append (safeW_of_safeChunk (by decide) _)
      (safeW_append (safeW_abs' (c := '&') hch1 hq1 (by decide) (by rfl))
        (safeW_append (safeW_of_safeChunk (by decide) _)
          (safeW_append (safeW_abs' (c := '&') hch1 hq2 (by decide) (by rfl))
            (safeW_append (safeW_of_safeChunk (by decide) _)
              (safeW_append (safeW_abs' (c := '&') hch1 hq3 (by decide) (by rfl))
                (safeW_append (safeW_of_safeChunk (by decide) _)
                  (safeW_append (safeW_abs' (c := '&') hch1 hq4 (by decide) (by rfl))
                    (safeW_append (safeW_of_safeChunk (by decide) _)
                      (safeW_abs_nil hch1 hq5))))))))))]
  -- step 2: removal of the interpolated language fragment
  rw [show "https://api.openweathermap.org/data/3.0/".data ++ "onecall/overview?".data
        ++ ("lat=".data ++ (latD ++ ("&lon=".data ++ (lonD ++ ("&appid=".data ++ (keyD
          ++ ("&lang=".data ++ (langD ++ ("&units=".data ++ unitsD)))))))))
      = (("https://api.openweathermap.org/data/3.0/".data
          ++ ("onecall/overview?".data ++ ("lat=".data ++ (latD ++ ("&lon=".data
            ++ (lonD ++ ("&appid=".data ++ keyD)))))))
         ++ ("&lang=".data ++ langD))
        ++ ("&units=".data ++ unitsD)
      from by simp [List.append_assoc]]
  rw [replaceAll_single hpat2
    (safeW_append (safeW_mono (safeW_of_safeChunk (by decide) _))
      (safeW_append (safeW_mono (safeW_of_safeChunk (by decide) _))
        (safeW_append (safeW_mono (safeW_of_safeChunk (by decide) _))
          (safeW_append (safeW_head ha1)
            (safeW_append (safeW_mono (safeW_of_safeChunk (by decide) _))
              (safeW_append (safeW_head ha2)
                (safeW_append (safeW_mono (safeW_of_safeChunk (by decide) _))
                  (safeW_head ha3))))))))]
  rw [replaceAll_eq_self
    (safeW_append (safeW_mono (safeW_of_safeChunk (by decide) _))
      (safeW_head ha5))]
  simp [List.append_assoc]

/-- Strings are equal when their character lists are. -/
theorem stringDataEq {s t : String} (h : s.data = t.data) : s = t := by
  cases s
  cases t
  exact congrArg String.mk h

/-- Character data of appended strings. -/
theorem dataAppend (s t : String) : (s ++ t).data = s.data ++ t.data := rfl

/-! ## Claim theorems -/

/-- C2: the four specific error classes are subclasses of
`OpenWeatherMapException`, as the claim says, but none of the five
classes descends from `BaseException` (errors.py declares the root with
no base), so none is raisable, and none accepts the message argument the
api.py raise sites pass: every `C(error_message)` call itself dies with a
`TypeError`.  This records the code bug behind the claim. -/
theorem C2_error_classes_not_raisable :
    (OWMErrorClass.isSubclassOf OWMErrorClass.SubscriptionLevelError
      OWMErrorClass.OpenWeatherMapException = true)
    ∧ (OWMErrorClass.isSubclassOf OWMErrorClass.InvalidAPIKeyError
      OWMErrorClass.OpenWeatherMapException = true)
    ∧ (OWMErrorClass.isSubclassOf OWMErrorClass.NotFoundError
      OWMErrorClass.OpenWeatherMapException = true)
    ∧ (OWMErrorClass.isSubclassOf OWMErrorClass.TooManyRequestsError
      OWMErrorClass.OpenWeatherMapException = true)
    ∧ (∀ c : OWMErrorClass, c.extendsExceptionBase = false)
    ∧ (∀ c : OWMErrorClass, c.raisable = false)
    ∧ (∀ (c : OWMErrorClass) (m : String),
        c.callWithMessage m = Except.error PyCallError.TypeError) := by
  refine ⟨rfl, rfl, rfl, rfl, ?_, ?_, ?_⟩
  · intro c
    cases c <;> rfl
  · intro c
    cases c <;> rfl
  · intro c m
    rfl

/-- C3: for every status code in the standard HTTP range 100-599 the
shared classifier never produces the subscription-level error (the
branch on the literal 400000 is unreachable there), and a plain 400
yields the generic `OpenWeatherMapException`. -/
theorem C3_no_subscription_in_http_range :
    (∀ (s : Nat) (m : String), 100 ≤ s → s ≤ 599 →
      (classifyStatus s m).isSubscriptionLevel = false)
    ∧ (∀ m : String, classifyStatus 400 m = PyError.OpenWeatherMapException m) := by
  constructor
  · intro s m h1 h2
    unfold classifyStatus
    split_ifs with hA hB hC hD
    · exact absurd hA (by omega)
    · rfl
    · rfl
    · rfl
    · rfl
  · intro m
    rfl

/-- Witness for C3 at the concrete status 400. -/
theorem C3_no_subscription_in_http_range_witness :
    (classifyStatus 400 "bad request").isSubscriptionLevel = false
    ∧ classifyStatus 400 "bad request" = PyError.OpenWeatherMapException "bad request" :=
  ⟨C3_no_subscription_in_http_range.1 400 "bad request" (by decide) (by decide),
   C3_no_subscription_in_http_range.2 "bad request"⟩

/-- C4: for every non-success response the extracted error message is
the `message` field of the JSON object body when present, and the raw
response text when the body is not a JSON object or lacks the field. -/
theorem C4_message_extraction :
    ∀ (r : HttpResponse) (o : List (String × String)) (m : String), r.status ≠ 200 →
      (r.json = some o → o.lookup "message" = some m → extractErrorMessage r = m)
      ∧ (r.json = some o → o.lookup "message" = none → extractErrorMessage r = r.text)
      ∧ (r.json = none → extractErrorMessage r = r.text) := by
  intro r o m _
  refine ⟨?_, ?_, ?_⟩
  · intro hj hm
    unfold extractErrorMessage
    rw [hj]
    simp [hm]
  · intro hj hm
    unfold extractErrorMessage
    rw [hj]
    simp [hm]
  · intro hj
    unfold extractErrorMessage
    rw [hj]

/-- Witness for C4 on three concrete non-success responses: JSON body
with a message field, JSON body without it, and a non-JSON body. -/
theorem C4_message_extraction_witness :
    extractErrorMessage ⟨401, some [("message", "bad key")], "raw"⟩ = "bad key"
    ∧ extractErrorMessage ⟨404, some [("cod", "404")], "raw"⟩ = "raw"
    ∧ extractErrorMessage ⟨500, none, "server error"⟩ = "server error" :=
  ⟨(C4_message_extraction ⟨401, some [("message", "bad key")], "raw"⟩
      [("message", "bad key")] "bad key" (by decide)).1 rfl (by decide),
   (C4_message_extraction ⟨404, some [("cod", "404")], "raw"⟩
      [("cod", "404")] "unused" (by decide)).2.1 rfl (by decide),
   (C4_message_extraction ⟨500, none, "server error"⟩ [] "unused" (by decide)).2.2 rfl⟩

/-- C1: for every API operation and every non-success response (status
other than 200, or 201 for station registration), the raised error is
exactly the one the shared classifier assigns to the status code, and
the classifier follows the fixed table: 401 to `InvalidAPIKeyError`, 404
to `NotFoundError`, 429 to `TooManyRequestsError`, and every status
matching no case arm to the generic `OpenWeatherMapException`, each
carrying the extracted error message. -/
theorem C1_status_table :
    (∀ m, classifyStatus 401 m = PyError.InvalidAPIKeyError m)
    ∧ (∀ m, classifyStatus 404 m = PyError.NotFoundError m)
    ∧ (∀ m, classifyStatus 429 m = PyError.TooManyRequestsError m)
    ∧ (∀ (s : Nat) (m : String), s ≠ 400000 → s ≠ 401 → s ≠ 404 → s ≠ 429 →
        classifyStatus s m = PyError.OpenWeatherMapException m)
    ∧ (∀ (c : OneCallAPI) (exclude : List String) (r : HttpResponse), r.status ≠ 200 →
        (c.get_weather exclude (fun _ => r)).1
          = Except.error (classifyStatus r.status (extractErrorMessage r)))
    ∧ (∀ (c : OneCallAPI) (ts : Int) (r : HttpResponse), 283996800 ≤ ts → r.status ≠ 200 →
        (c.get_timed_weather ts (fun _ => r)).1
          = Except.error (classifyStatus r.status (extractErrorMessage r)))
    ∧ (∀ (c : OneCallAPI) (d : String) (r : HttpResponse), r.status ≠ 200 →
        (c.get_aggregation d (fun _ => r)).1
          = Except.error (classifyStatus r.status (extractErrorMessage r)))
    ∧ (∀ (c : OneCallAPI) (r : HttpResponse), r.status ≠ 200 →
        (c.get_overview (fun _ => r)).1
          = Except.error (classifyStatus r.status (extractErrorMessage r)))
    ∧ (∀ (c : CurrentWeatherAPI) (r : HttpResponse), r.status ≠ 200 →
        (c.get_weather (fun _ => r)).1
          = Except.error (classifyStatus r.status (extractErrorMessage r)))
    ∧ (∀ (c : FiveDayForecast) (r : HttpResponse), r.status ≠ 200 →
        (c.get_forecast (fun _ => r)).1
          = Except.error (classifyStatus r.status (extractErrorMessage r)))
    ∧ (∀ (c : AirPollutionAPI) (r : HttpResponse), r.status ≠ 200 →
        (c.get_current_air_pollution (fun _ => r)).1
          = Except.error (classifyStatus r.status (extractErrorMessage r)))
    ∧ (∀ (c : AirPollutionAPI) (r : HttpResponse), r.status ≠ 200 →
        (c.get_air_pollution_forecast (fun _ => r)).1
          = Except.error (classifyStatus r.status (extractErrorMessage r)))
    ∧ (∀ (c : AirPollutionAPI) (a b : Int) (r : HttpResponse), r.status ≠ 200 →
        (c.get_air_pollution_history a b (fun _ => r)).1
          = Except.error (classifyStatus r.status (extractErrorMessage r)))
    ∧ (∀ (c : GeocodingAPI) (city country : String) (st : Option String) (limit : Int)
        (r : HttpResponse), 1 ≤ limit → limit ≤ 5 → r.status ≠ 200 →
        (c.get_by_city city country st limit (fun _ => r)).1
          = Except.error (classifyStatus r.status (extractErrorMessage r)))
    ∧ (∀ (c : GeocodingAPI) (z co : String) (r : HttpResponse), r.status ≠ 200 →
        (c.get_by_zip z co (fun _ => r)).1
          = Except.error (classifyStatus r.status (extractErrorMessage r)))
    ∧ (∀ (c : GeocodingAPI) (la lo : Rat) (limit : Int) (r : HttpResponse),
        1 ≤ limit → limit ≤ 5 → -90 ≤ la → la ≤ 90 → -180 ≤ lo → lo ≤ 180 →
        r.status ≠ 200 →
        (c.get_by_coordinates la lo limit (fun _ => r)).1
          = Except.error (classifyStatus r.status (extractErrorMessage r)))
    ∧ (∀ (c : WeatherStationAPI) (sd : List (String × String)) (r : HttpResponse),
        r.status ≠ 201 →
        (c.register_station sd (fun _ _ => r)).1
          = Except.error (classifyStatus r.status (extractErrorMessage r))) := by
  refine ⟨fun m => rfl, fun m => rfl, fun m => rfl, ?_, ?_, ?_, ?_, ?_, ?_, ?_, ?_, ?_,
    ?_, ?_, ?_, ?_, ?_⟩
  · intro s m h1 h2 h3 h4
    unfold classifyStatus
    rw [if_neg h1, if_neg h2, if_neg h3, if_neg h4]
  · intro c exclude r hr
    simp [OneCallAPI.get_weather, hr]
  · intro c ts r hts hr
    simp [OneCallAPI.get_timed_weather, hr, show ¬(ts < 283996800) from by omega]
  · intro c d r hr
    simp [OneCallAPI.get_aggregation, hr]
  · intro c r hr
    simp [OneCallAPI.get_overview, hr]
  · intro c r hr
    simp [CurrentWeatherAPI.get_weather, hr]
  · intro c r hr
    simp [FiveDayForecast.get_forecast, hr]
  · intro c r hr
    simp [AirPollutionAPI.get_current_air_pollution, hr]
  · intro c r hr
    simp [AirPollutionAPI.get_air_pollution_forecast, hr]
  · intro c a b r hr
    simp [AirPollutionAPI.get_air_pollution_history, hr]
  · intro c city country st limit r h1 h2 hr
    simp [GeocodingAPI.get_by_city, hr, show ¬(limit > 5 ∨ limit < 1) from by omega]
  · intro c z co r hr
    simp [GeocodingAPI.get_by_zip, hr]
  · intro c la lo limit r h1 h2 h3 h4 h5 h6 hr
    simp [GeocodingAPI.get_by_coordinates, hr,
      show ¬(limit > 5 ∨ limit < 1) from by omega, h3, h4, h5, h6]
  · intro c sd r hr
    simp [WeatherStationAPI.register_station, hr]

/-- Witness for C1: concrete clients and concrete 401, 404, 429 and 500
responses, with the resulting errors fully evaluated. -/
theorem C1_status_table_witness :
    (OneCallAPI.get_weather ⟨"k", (0, 0), "en", "standard", "u"⟩ []
        (fun _ => ⟨401, some [("message", "bad key")], "raw"⟩)).1
      = Except.error (PyError.InvalidAPIKeyError "bad key")
    ∧ (CurrentWeatherAPI.get_weather ⟨"k", (0, 0), "en", "standard", "json", "u"⟩
        (fun _ => ⟨404, some [("message", "not found")], "raw"⟩)).1
      = Except.error (PyError.NotFoundError "not found")
    ∧ (GeocodingAPI.get_by_city ⟨"k", (0, 0), "en", "standard", "u"⟩ "London" "GB" none 1
        (fun _ => ⟨429, some [("message", "slow down")], "raw"⟩)).1
      = Except.error (PyError.TooManyRequestsError "slow down")
    ∧ (OneCallAPI.get_timed_weather ⟨"k", (0, 0), "en", "standard", "u"⟩ 283996800
        (fun _ => ⟨500, none, "boom"⟩)).1
      = Except.error (PyError.OpenWeatherMapException "boom") := by
  obtain ⟨t1, t2, t3, t4, h5, h6, h7, h8, h9, h10, h11, h12, h13, h14, h15, h16, h17⟩ :=
    C1_status_table
  refine ⟨?_, ?_, ?_, ?_⟩
  · exact (h5 ⟨"k", (0, 0), "en", "standard", "u"⟩ []
      ⟨401, some [("message", "bad key")], "raw"⟩ (by decide)).trans (by decide)
  · exact (h9 ⟨"k", (0, 0), "en", "standard", "json", "u"⟩
      ⟨404, some [("message", "not found")], "raw"⟩ (by decide)).trans (by decide)
  · exact (h14 ⟨"k", (0, 0), "en", "standard", "u"⟩ "London" "GB" none 1
      ⟨429, some [("message", "slow down")], "raw"⟩ (by decide) (by decide)
      (by decide)).trans (by decide)
  · exact (h6 ⟨"k", (0, 0), "en", "standard", "u"⟩ 283996800
      ⟨500, none, "boom"⟩ (by decide) (by decide)).trans (by decide)

/-- C8: for both geocoding operations, a limit outside 1..5 raises the
`ValueError` (the InvalidParameter of the spec) before any request (the
request trace is empty), while a limit inside the bounds passes the
limit validation and exactly one request is issued. -/
theorem C8_geocoding_limit_bounds :
    (∀ (c : GeocodingAPI) (city country : String) (st : Option String) (limit : Int)
        (T : String → HttpResponse), limit < 1 ∨ 5 < limit →
        c.get_by_city city country st limit T
          = (Except.error (PyError.ValueError "Limit must be between 1 and 5."), []))
    ∧ (∀ (c : GeocodingAPI) (city country : String) (st : Option String) (limit : Int)
        (T : String → HttpResponse), 1 ≤ limit → limit ≤ 5 →
        (c.get_by_city city country st limit T).2.length = 1)
    ∧ (∀ (c : GeocodingAPI) (la lo : Rat) (limit : Int) (T : String → HttpResponse),
        limit < 1 ∨ 5 < limit →
        c.get_by_coordinates la lo limit T
          = (Except.error (PyError.ValueError "Limit must be between 1 and 5."), []))
    ∧ (∀ (c : GeocodingAPI) (la lo : Rat) (limit : Int) (T : String → HttpResponse),
        1 ≤ limit → limit ≤ 5 → -90 ≤ la → la ≤ 90 → -180 ≤ lo → lo ≤ 180 →
        (c.get_by_coordinates la lo limit T).2.length = 1) := by
  refine ⟨?_, ?_, ?_, ?_⟩
  · intro c city country st limit T h
    unfold GeocodingAPI.get_by_city
    rw [if_pos (by omega)]
  · intro c city country st limit T h1 h2
    unfold GeocodingAPI.get_by_city
    rw [if_neg (by omega)]
    rfl
  · intro c la lo limit T h
    unfold GeocodingAPI.get_by_coordinates
    rw [if_pos (by omega)]
  · intro c la lo limit T h1 h2 h3 h4 h5 h6
    unfold GeocodingAPI.get_by_coordinates
    rw [if_neg (by omega), if_neg (by simp [h3, h4, h5, h6])]
    rfl

/-- Witness for C8 at the boundary limits 0, 6, 1 and 5. -/
theorem C8_geocoding_limit_bounds_witness :
    (GeocodingAPI.get_by_city ⟨"k", (0, 0), "en", "standard", "u"⟩ "London" "GB" none 0
        (fun _ => ⟨200, some [], ""⟩))
      = (Except.error (PyError.ValueError "Limit must be between 1 and 5."), [])
    ∧ (GeocodingAPI.get_by_coordinates ⟨"k", (0, 0), "en", "standard", "u"⟩ 1 2 6
        (fun _ => ⟨200, some [], ""⟩))
      = (Except.error (PyError.ValueError "Limit must be between 1 and 5."), [])
    ∧ (GeocodingAPI.get_by_city ⟨"k", (0, 0), "en", "standard", "u"⟩ "London" "GB" none 1
        (fun _ => ⟨200, some [], ""⟩)).2.length = 1
    ∧ (GeocodingAPI.get_by_coordinates ⟨"k", (0, 0), "en", "standard", "u"⟩ 1 2 5
        (fun _ => ⟨200, some [], ""⟩)).2.length = 1 :=
  ⟨C8_geocoding_limit_bounds.1 ⟨"k", (0, 0), "en", "standard", "u"⟩ "London" "GB" none 0
      (fun _ => ⟨200, some [], ""⟩) (by decide),
   C8_geocoding_limit_bounds.2.2.1 ⟨"k", (0, 0), "en", "standard", "u"⟩ 1 2 6
      (fun _ => ⟨200, some [], ""⟩) (by decide),
   C8_geocoding_limit_bounds.2.1 ⟨"k", (0, 0), "en", "standard", "u"⟩ "London" "GB" none 1
      (fun _ => ⟨200, some [], ""⟩) (by decide) (by decide),
   C8_geocoding_limit_bounds.2.2.2 ⟨"k", (0, 0), "en", "standard", "u"⟩ 1 2 5
      (fun _ => ⟨200, some [], ""⟩) (by decide) (by decide) (by decide) (by decide)
      (by decide) (by decide)⟩

/-- C9: a timestamp at or after 283996800 (1979-01-01) passes the
validation of `get_timed_weather` and exactly one request is issued; a
timestamp strictly before it raises the `ValueError` with no request. -/
theorem C9_timestamp_bound :
    (∀ (c : OneCallAPI) (ts : Int) (T : String → HttpResponse), ts < 283996800 →
        c.get_timed_weather ts T
          = (Except.error (PyError.ValueError
              "Timestamp must be greater than or equal to January 1, 1979 (283996800)."), []))
    ∧ (∀ (c : OneCallAPI) (ts : Int) (T : String → HttpResponse), 283996800 ≤ ts →
        (c.get_timed_weather ts T).2.length = 1) := by
  constructor
  · intro c ts T h
    unfold OneCallAPI.get_timed_weather
    rw [if_pos h]
  · intro c ts T h
    unfold OneCallAPI.get_timed_weather
    rw [if_neg (by omega)]
    rfl

/-- Witness for C9 at the boundary timestamps 283996799 and 283996800. -/
theorem C9_timestamp_bound_witness :
    (OneCallAPI.get_timed_weather ⟨"k", (0, 0), "en", "standard", "u"⟩ 283996799
        (fun _ => ⟨200, some [], ""⟩))
      = (Except.error (PyError.ValueError
          "Timestamp must be greater than or equal to January 1, 1979 (283996800)."), [])
    ∧ (OneCallAPI.get_timed_weather ⟨"k", (0, 0), "en", "standard", "u"⟩ 283996800
        (fun _ => ⟨200, some [], ""⟩)).2.length = 1 :=
  ⟨C9_timestamp_bound.1 ⟨"k", (0, 0), "en", "standard", "u"⟩ 283996799
      (fun _ => ⟨200, some [], ""⟩) (by decide),
   C9_timestamp_bound.2 ⟨"k", (0, 0), "en", "standard", "u"⟩ 283996800
      (fun _ => ⟨200, some [], ""⟩) (by decide)⟩

/-- C10: for a forecast client built from a coordinate location, a count
at most zero leaves the stored URL exactly the base URL (no `cnt`
fragment is appended), and a strictly positive count appends exactly
`&cnt={count}`. -/
theorem C10_forecast_count :
    ∀ (key : String) (la lo : Rat) (count : Int) (lang units mode : String)
      (g : String → Option (Rat × Rat)) (c : FiveDayForecast),
      (FiveDayForecast.init key (LocationInput.coords la lo) count lang units mode g).1
        = Except.ok c →
      (count ≤ 0 → c.url = forecastBaseUrl key (la, lo) lang units mode)
      ∧ (0 < count →
          c.url = forecastBaseUrl key (la, lo) lang units mode ++ "&cnt=" ++ toString count) := by
  intro key la lo count lang units mode g c hc
  simp only [FiveDayForecast.init, baseResolve] at hc
  by_cases hr : ¬(-90 ≤ la ∧ la ≤ 90 ∧ -180 ≤ lo ∧ lo ≤ 180)
  · rw [if_pos hr] at hc
    simp at hc
  · rw [if_neg hr] at hc
    by_cases hm : mode ∉ ["xml", "json"]
    · simp only [if_pos hm] at hc
      simp at hc
    · simp only [if_neg hm] at hc
      simp only [Except.ok.injEq] at hc
      constructor
      · intro hcnt
        rw [← hc]
        show (if count > 0 then forecastBaseUrl key (la, lo) lang units mode ++ "&cnt="
            ++ toString count else forecastBaseUrl key (la, lo) lang units mode) = _
        rw [if_neg (by omega)]
      · intro hcnt
        rw [← hc]
        show (if count > 0 then forecastBaseUrl key (la, lo) lang units mode ++ "&cnt="
            ++ toString count else forecastBaseUrl key (la, lo) lang units mode) = _
        rw [if_pos (by omega)]

/-- Witness for C10 with counts 0 and 3 on a concrete client. -/
theorem C10_forecast_count_witness :
    (FiveDayForecast.mk "k" (1, 2) 0 "en" "standard" "json"
        (forecastBaseUrl "k" (1, 2) "en" "standard" "json")).url
      = forecastBaseUrl "k" (1, 2) "en" "standard" "json"
    ∧ (FiveDayForecast.mk "k" (1, 2) 3 "en" "standard" "json"
        (forecastBaseUrl "k" (1, 2) "en" "standard" "json" ++ "&cnt=" ++ toString (3 : Int))).url
      = forecastBaseUrl "k" (1, 2) "en" "standard" "json" ++ "&cnt=" ++ toString (3 : Int) :=
  ⟨(C10_forecast_count "k" 1 2 0 "en" "standard" "json" (fun _ => none)
      (FiveDayForecast.mk "k" (1, 2) 0 "en" "standard" "json"
        (forecastBaseUrl "k" (1, 2) "en" "standard" "json"))
      (by decide)).1 (by decide),
   (C10_forecast_count "k" 1 2 3 "en" "standard" "json" (fun _ => none)
      (FiveDayForecast.mk "k" (1, 2) 3 "en" "standard" "json"
        (forecastBaseUrl "k" (1, 2) "en" "standard" "json" ++ "&cnt=" ++ toString (3 : Int)))
      (by decide)).2 (by decide)⟩

/-- C5 (amended): every local validation failure (malformed or
out-of-range coordinate tuple, unsupported mode, out-of-bounds limit,
too-early timestamp) is raised with zero OpenWeatherMap API requests,
and with zero network requests of any kind whenever the failing check is
reached without a prior free-text geocoding resolution; a constructor
whose location is a free-text name may already have performed its one
geocoding lookup before a later validation failure (see the
counterexample). -/
theorem C5_amended :
    (∀ g : String → Option (Rat × Rat),
        baseResolve LocationInput.badTuple g
          = (Except.error (PyError.ValueError
              "Location must be a tuple of (latitude, longitude)."), []))
    ∧ (∀ (la lo : Rat) (g : String → Option (Rat × Rat)),
        ¬(-90 ≤ la ∧ la ≤ 90 ∧ -180 ≤ lo ∧ lo ≤ 180) →
        baseResolve (LocationInput.coords la lo) g
          = (Except.error (PyError.ValueError
              "Latitude must be between -90 and 90, and longitude must be between -180 and 180."), []))
    ∧ (∀ (key lang units : String) (la lo : Rat) (g : String → Option (Rat × Rat)),
        ¬(-90 ≤ la ∧ la ≤ 90 ∧ -180 ≤ lo ∧ lo ≤ 180) →
        OneCallAPI.init key (LocationInput.coords la lo) lang units g
          = (Except.error (PyError.ValueError
              "Latitude must be between -90 and 90, and longitude must be between -180 and 180."), []))
    ∧ (∀ (key lang units mode : String) (la lo : Rat) (g : String → Option (Rat × Rat)),
        (-90 ≤ la ∧ la ≤ 90 ∧ -180 ≤ lo ∧ lo ≤ 180) → mode ∉ ["xml", "html", "json"] →
        CurrentWeatherAPI.init key (LocationInput.coords la lo) lang units mode g
          = (Except.error (PyError.ValueError "Mode must be either xml or html or json."), []))
    ∧ (∀ (key lang units mode : String) (count : Int) (la lo : Rat)
        (g : String → Option (Rat × Rat)),
        (-90 ≤ la ∧ la ≤ 90 ∧ -180 ≤ lo ∧ lo ≤ 180) → mode ∉ ["xml", "json"] →
        FiveDayForecast.init key (LocationInput.coords la lo) count lang units mode g
          = (Except.error (PyError.ValueError "Mode must be either xml or json."), []))
    ∧ (∀ g : String → Option (Rat × Rat),
        WeatherStationAPI.init "" g
          = (Except.error (PyError.ValueError "API key must be provided."), []))
    ∧ (∀ (c : OneCallAPI) (ts : Int) (T : String → HttpResponse), ts < 283996800 →
        c.get_timed_weather ts T
          = (Except.error (PyError.ValueError
              "Timestamp must be greater than or equal to January 1, 1979 (283996800)."), []))
    ∧ (∀ (c : GeocodingAPI) (city country : String) (st : Option String) (limit : Int)
        (T : String → HttpResponse), limit < 1 ∨ 5 < limit →
        c.get_by_city city country st limit T
          = (Except.error (PyError.ValueError "Limit must be between 1 and 5."), []))
    ∧ (∀ (c : GeocodingAPI) (la lo : Rat) (limit : Int) (T : String → HttpResponse),
        limit < 1 ∨ 5 < limit →
        c.get_by_coordinates la lo limit T
          = (Except.error (PyError.ValueError "Limit must be between 1 and 5."), []))
    ∧ (∀ (c : GeocodingAPI) (la lo : Rat) (limit : Int) (T : String → HttpResponse),
        1 ≤ limit → limit ≤ 5 → ¬(-90 ≤ la ∧ la ≤ 90 ∧ -180 ≤ lo ∧ lo ≤ 180) →
        c.get_by_coordinates la lo limit T
          = (Except.error (PyError.ValueError
              "Latitude must be between -90 and 90, and longitude must be between -180 and 180."), [])) := by
  refine ⟨?_, ?_, ?_, ?_, ?_, ?_, ?_, ?_, ?_, ?_⟩
  · intro g
    rfl
  · intro la lo g h
    simp only [baseResolve]
    rw [if_pos h]
  · intro key lang units la lo g h
    simp only [OneCallAPI.init, baseResolve]
    rw [if_pos h]
  · intro key lang units mode la lo g hrange hm
    simp only [CurrentWeatherAPI.init, baseResolve]
    rw [if_neg (not_not_intro hrange)]
    simp only [if_pos hm]
  · intro key lang units mode count la lo g hrange hm
    simp only [FiveDayForecast.init, baseResolve]
    rw [if_neg (not_not_intro hrange)]
    simp only [if_pos hm]
  · intro g
    unfold WeatherStationAPI.init
    rw [if_pos rfl]
  · intro c ts T h
    unfold OneCallAPI.get_timed_weather
    rw [if_pos h]
  · intro c city country st limit T h
    unfold GeocodingAPI.get_by_city
    rw [if_pos (by omega)]
  · intro c la lo limit T h
    unfold GeocodingAPI.get_by_coordinates
    rw [if_pos (by omega)]
  · intro c la lo limit T h1 h2 h3
    unfold GeocodingAPI.get_by_coordinates
    rw [if_neg (by omega), if_pos h3]

/-- Witness for C5 (amended) at concrete failing inputs: an out-of-range
coordinate constructor call, an unsupported mode with a coordinate
location, a too-early timestamp, and an out-of-bounds limit, each with an
empty request trace. -/
theorem C5_amended_witness :
    OneCallAPI.init "k" (LocationInput.coords 91 0) "en" "standard" (fun _ => some (1, 2))
      = (Except.error (PyError.ValueError
          "Latitude must be between -90 and 90, and longitude must be between -180 and 180."), [])
    ∧ CurrentWeatherAPI.init "k" (LocationInput.coords 1 2) "en" "standard" "bogus"
        (fun _ => some (1, 2))
      = (Except.error (PyError.ValueError "Mode must be either xml or html or json."), [])
    ∧ OneCallAPI.get_timed_weather ⟨"k", (0, 0), "en", "standard", "u"⟩ 283996799
        (fun _ => ⟨200, some [], ""⟩)
      = (Except.error (PyError.ValueError
          "Timestamp must be greater than or equal to January 1, 1979 (283996800)."), [])
    ∧ GeocodingAPI.get_by_city ⟨"k", (0, 0), "en", "standard", "u"⟩ "London" "GB" none 6
        (fun _ => ⟨200, some [], ""⟩)
      = (Except.error (PyError.ValueError "Limit must be between 1 and 5."), []) := by
  obtain ⟨h1, h2, h3, h4, h5, h6, h7, h8, h9, h10⟩ := C5_amended
  exact ⟨h3 "k" "en" "standard" 91 0 (fun _ => some (1, 2)) (by decide),
    h4 "k" "en" "standard" "bogus" 1 2 (fun _ => some (1, 2)) (by decide) (by decide),
    h7 ⟨"k", (0, 0), "en", "standard", "u"⟩ 283996799 (fun _ => ⟨200, some [], ""⟩) (by decide),
    h8 ⟨"k", (0, 0), "en", "standard", "u"⟩ "London" "GB" none 6 (fun _ => ⟨200, some [], ""⟩)
      (by decide)⟩

/-- Counterexample for C5 as stated: constructing a current-weather
client from a free-text location with an unsupported mode performs the
geocoding network lookup first and only then raises the mode validation
error, so a network request has occurred on an invocation that ends in a
local validation failure. -/
theorem C5_counterexample :
    CurrentWeatherAPI.init "k" (LocationInput.name "London") "en" "standard" "bogus"
        (fun _ => some (1, 2))
      = (Except.error (PyError.ValueError "Mode must be either xml or html or json."),
         ["London"])
    ∧ (["London"] : List String) ≠ [] := by
  exact ⟨by decide, by decide⟩

/-- Counterexample for C6 as stated: the geocoding base URL always
contains the dangling separator pair from the source template
`.../direct?&appid=...` , so the composed URL does contain an empty
query fragment even though no optional field was involved. -/
theorem C6_counterexample :
    (GeocodingAPI.init "k" (fun _ => none)).1
      = Except.ok (GeocodingAPI.mk "k" (0, 0) "en" "standard"
          "https://api.openweathermap.org/geo/1.0/direct?&appid=k")
    ∧ containsSub "https://api.openweathermap.org/geo/1.0/direct?&appid=k" "?&" = true := by
  exact ⟨by decide, by decide⟩

/-- C6 (amended): an absent or empty optional field (exclusion list,
state code, count) contributes nothing to the composed URL, which equals
the URL built without that field; the qualification that no URL ever
contains an empty query fragment is dropped, since the geocoding base
template itself carries a dangling `?&` separator. -/
theorem C6_optional_fields :
    (∀ (c : OneCallAPI) (T : String → HttpResponse),
        (c.get_weather [] T).2 = [c.url])
    ∧ (∀ (c : GeocodingAPI) (city country : String) (limit : Int)
        (T : String → HttpResponse), 1 ≤ limit → limit ≤ 5 →
        (c.get_by_city city country none limit T).2
          = [c.url ++ "&q=" ++ city ++ "," ++ country ++ "&limit=" ++ toString limit])
    ∧ (∀ (c : GeocodingAPI) (city country : String) (limit : Int)
        (T : String → HttpResponse), 1 ≤ limit → limit ≤ 5 →
        (c.get_by_city city country (some "") limit T).2
          = [c.url ++ "&q=" ++ city ++ "," ++ country ++ "&limit=" ++ toString limit])
    ∧ (∀ (key : String) (la lo : Rat) (count : Int) (lang units mode : String)
        (g : String → Option (Rat × Rat)) (c : FiveDayForecast),
        (FiveDayForecast.init key (LocationInput.coords la lo) count lang units mode g).1
          = Except.ok c →
        count ≤ 0 → c.url = forecastBaseUrl key (la, lo) lang units mode) := by
  refine ⟨?_, ?_, ?_, ?_⟩
  · intro c T
    simp [OneCallAPI.get_weather, OneCallAPI.weatherUrl]
  · intro c city country limit T h1 h2
    unfold GeocodingAPI.get_by_city
    rw [if_neg (by omega)]
    simp [GeocodingAPI.byCityUrl]
  · intro c city country limit T h1 h2
    unfold GeocodingAPI.get_by_city
    rw [if_neg (by omega)]
    simp [GeocodingAPI.byCityUrl]
  · intro key la lo count lang units mode g c hc hcnt
    simp only [FiveDayForecast.init, baseResolve] at hc
    by_cases hr : ¬(-90 ≤ la ∧ la ≤ 90 ∧ -180 ≤ lo ∧ lo ≤ 180)
    · rw [if_pos hr] at hc
      simp at hc
    · rw [if_neg hr] at hc
      by_cases hm : mode ∉ ["xml", "json"]
      · simp only [if_pos hm] at hc
        simp at hc
      · simp only [if_neg hm] at hc
        simp only [Except.ok.injEq] at hc
        rw [← hc]
        show (if count > 0 then forecastBaseUrl key (la, lo) lang units mode ++ "&cnt="
            ++ toString count else forecastBaseUrl key (la, lo) lang units mode) = _
        rw [if_neg (by omega)]

/-- Witness for C6 (amended) on concrete clients: empty exclusion list,
missing and empty state code, and a non-positive count. -/
theorem C6_optional_fields_witness :
    (OneCallAPI.get_weather ⟨"k", (0, 0), "en", "standard", "u"⟩ []
        (fun _ => ⟨200, some [], ""⟩)).2 = ["u"]
    ∧ (GeocodingAPI.get_by_city ⟨"k", (0, 0), "en", "standard", "u"⟩ "London" "GB" none 2
        (fun _ => ⟨200, some [], ""⟩)).2 = ["u&q=London,GB&limit=2"]
    ∧ (GeocodingAPI.get_by_city ⟨"k", (0, 0), "en", "standard", "u"⟩ "London" "GB" (some "") 2
        (fun _ => ⟨200, some [], ""⟩)).2 = ["u&q=London,GB&limit=2"]
    ∧ (FiveDayForecast.mk "k" (1, 2) (-1) "en" "standard" "json"
        (forecastBaseUrl "k" (1, 2) "en" "standard" "json")).url
      = forecastBaseUrl "k" (1, 2) "en" "standard" "json" := by
  obtain ⟨h1, h2, h3, h4⟩ := C6_optional_fields
  exact ⟨(h1 ⟨"k", (0, 0), "en", "standard", "u"⟩ (fun _ => ⟨200, some [], ""⟩)).trans
      (by decide),
    (h2 ⟨"k", (0, 0), "en", "standard", "u"⟩ "London" "GB" 2 (fun _ => ⟨200, some [], ""⟩)
      (by decide) (by decide)).trans (by decide),
    (h3 ⟨"k", (0, 0), "en", "standard", "u"⟩ "London" "GB" 2 (fun _ => ⟨200, some [], ""⟩)
      (by decide) (by decide)).trans (by decide),
    h4 "k" 1 2 (-1) "en" "standard" "json" (fun _ => none)
      (FiveDayForecast.mk "k" (1, 2) (-1) "en" "standard" "json"
        (forecastBaseUrl "k" (1, 2) "en" "standard" "json")) (by decide) (by decide)⟩

/-- String-level form of `overview_list`: the URL produced by the two
string replacements of `get_overview` on the one-call base URL equals
the overview URL with the language parameter omitted and every other
parameter unchanged, whenever the interpolated components are free of
the separator characters. -/
theorem overview_general (latS lonS key lang units : String)
    (hq1 : '?' ∉ latS.data) (hq2 : '?' ∉ lonS.data) (hq3 : '?' ∉ key.data)
    (hq4 : '?' ∉ lang.data) (hq5 : '?' ∉ units.data)
    (ha1 : '&' ∉ latS.data) (ha2 : '&' ∉ lonS.data) (ha3 : '&' ∉ key.data)
    (ha5 : '&' ∉ units.data) :
    pyReplace (pyReplace
        ("https://api.openweathermap.org/data/3.0/onecall?lat=" ++ latS ++ "&lon=" ++ lonS
          ++ "&appid=" ++ key ++ "&lang=" ++ lang ++ "&units=" ++ units)
        "onecall?" "onecall/overview?")
      ("&lang=" ++ lang) ""
    = "https://api.openweathermap.org/data/3.0/onecall/overview?lat=" ++ latS ++ "&lon="
        ++ lonS ++ "&appid=" ++ key ++ "&units=" ++ units := by
  apply stringDataEq
  have hbase : (("https://api.openweathermap.org/data/3.0/onecall?lat=" ++ latS ++ "&lon="
      ++ lonS ++ "&appid=" ++ key ++ "&lang=" ++ lang ++ "&units=" ++ units) : String).data
      = "https://api.openweathermap.org/data/3.0/".data ++ "onecall?".data ++ "lat=".data
        ++ latS.data ++ "&lon=".data ++ lonS.data ++ "&appid=".data ++ key.data
        ++ "&lang=".data ++ lang.data ++ "&units=".data ++ units.data := by
    simp [dataAppend, List.append_assoc]
  have hexp : (("https://api.openweathermap.org/data/3.0/onecall/overview?lat=" ++ latS
      ++ "&lon=" ++ lonS ++ "&appid=" ++ key ++ "&units=" ++ units) : String).data
      = "https://api.openweathermap.org/data/3.0/".data ++ "onecall/overview?".data
        ++ "lat=".data ++ latS.data ++ "&lon=".data ++ lonS.data ++ "&appid=".data
        ++ key.data ++ "&units=".data ++ units.data := by
    simp [dataAppend, List.append_assoc]
  show replaceAll (replaceAll
      (("https://api.openweathermap.org/data/3.0/onecall?lat=" ++ latS ++ "&lon=" ++ lonS
        ++ "&appid=" ++ key ++ "&lang=" ++ lang ++ "&units=" ++ units) : String).data
      "onecall?".data "onecall/overview?".data)
      (("&lang=" ++ lang) : String).data ("" : String).data = _
  rw [hbase, hexp]
  rw [show (("&lang=" ++ lang) : String).data = "&lang=".data ++ lang.data from rfl]
  rw [show ("" : String).data = ([] : List Char) from rfl]
  exact overview_list latS.data lonS.data key.data lang.data units.data
    hq1 hq2 hq3 hq4 hq5 ha1 ha2 ha3 ha5

/-- C7 (amended): for a one-call client built from an api key, a
coordinate location, a language and units whose URL renderings contain
neither an ampersand nor a question mark, the URL requested by
`get_overview` is the base URL with the path segment rewritten from
`onecall` to `onecall/overview` and the language parameter omitted,
while the lat, lon, appid and units parameters are unchanged.  The
character restriction is forced by the counterexample: the source
performs the rewrite by string surgery on the already-interpolated URL,
so components containing the separator substrings are corrupted. -/
theorem C7_overview_url (key lang units : String) (la lo : Rat)
    (g : String → Option (Rat × Rat)) (c : OneCallAPI) (T : String → HttpResponse)
    (hq1 : '?' ∉ (pyStr la).data) (hq2 : '?' ∉ (pyStr lo).data)
    (hq3 : '?' ∉ key.data) (hq4 : '?' ∉ lang.data) (hq5 : '?' ∉ units.data)
    (ha1 : '&' ∉ (pyStr la).data) (ha2 : '&' ∉ (pyStr lo).data) (ha3 : '&' ∉ key.data)
    (ha5 : '&' ∉ units.data)
    (hc : (OneCallAPI.init key (LocationInput.coords la lo) lang units g).1 = Except.ok c) :
    (c.get_overview T).2
      = ["https://api.openweathermap.org/data/3.0/onecall/overview?lat=" ++ pyStr la
          ++ "&lon=" ++ pyStr lo ++ "&appid=" ++ key ++ "&units=" ++ units] := by
  simp only [OneCallAPI.init, baseResolve] at hc
  by_cases hr : ¬(-90 ≤ la ∧ la ≤ 90 ∧ -180 ≤ lo ∧ lo ≤ 180)
  · rw [if_pos hr] at hc
    simp at hc
  · rw [if_neg hr] at hc
    simp only [Except.ok.injEq] at hc
    subst hc
    simp only [OneCallAPI.get_overview, OneCallAPI.overviewUrl]
    rw [overview_general (pyStr la) (pyStr lo) key lang units
      hq1 hq2 hq3 hq4 hq5 ha1 ha2 ha3 ha5]

/-- Witness for C7 (amended) on a concrete client. -/
theorem C7_overview_url_witness :
    (OneCallAPI.get_overview (OneCallAPI.mk "abc" (1, 2) "en" "metric"
        "https://api.openweathermap.org/data/3.0/onecall?lat=1&lon=2&appid=abc&lang=en&units=metric")
        (fun _ => ⟨200, some [], ""⟩)).2
      = ["https://api.openweathermap.org/data/3.0/onecall/overview?lat=1&lon=2&appid=abc&units=metric"] :=
  (C7_overview_url "abc" "en" "metric" 1 2 (fun _ => none)
      (OneCallAPI.mk "abc" (1, 2) "en" "metric"
        "https://api.openweathermap.org/data/3.0/onecall?lat=1&lon=2&appid=abc&lang=en&units=metric")
      (fun _ => ⟨200, some [], ""⟩)
      (by decide) (by decide) (by decide) (by decide) (by decide)
      (by decide) (by decide) (by decide) (by decide) (by decide)).trans (by decide)

/-- Counterexample for C7 as stated: with the api key `a&lang=en` (and
language `en`) the string surgery of `get_overview` also removes the
`&lang=en` occurrence inside the appid parameter, so the requested URL
differs from the URL the claim prescribes (appid unchanged, only the
language parameter omitted). -/
theorem C7_counterexample :
    (OneCallAPI.init "a&lang=en" (LocationInput.coords 1 2) "en" "standard" (fun _ => none)).1
      = Except.ok (OneCallAPI.mk "a&lang=en" (1, 2) "en" "standard"
          "https://api.openweathermap.org/data/3.0/onecall?lat=1&lon=2&appid=a&lang=en&lang=en&units=standard")
    ∧ (OneCallAPI.get_overview (OneCallAPI.mk "a&lang=en" (1, 2) "en" "standard"
          "https://api.openweathermap.org/data/3.0/onecall?lat=1&lon=2&appid=a&lang=en&lang=en&units=standard")
        (fun _ => ⟨200, some [], ""⟩)).2
      = ["https://api.openweathermap.org/data/3.0/onecall/overview?lat=1&lon=2&appid=a&units=standard"]
    ∧ ("https://api.openweathermap.org/data/3.0/onecall/overview?lat=1&lon=2&appid=a&units=standard" : String)
      ≠ "https://api.openweathermap.org/data/3.0/onecall/overview?lat=1&lon=2&appid=a&lang=en&units=standard" := by
  exact ⟨by decide, by decide, by decide⟩
